import Mathlib

/-!
Verification of the lead-to-quote pipeline of the `hackathon` repository.

Shallow embedding conventions:
- Python floats that carry money/distances are modelled as `ℚ`; `round(x, 2)`
  becomes `round2` (exact rational rounding to cents).  The properties proved
  below do not depend on the tie-breaking direction of the rounding, so the
  difference between Python's float half-even rounding and rational rounding
  is immaterial to every statement.
- Network calls (Google Distance Matrix, OSM geocoding, OSRM routing, the LLM,
  live part pricing) are modelled as oracle fields of explicit environment
  structures: `none`/falsy oracle values stand for "the provider raised or was
  not configured", exactly the cases the source code catches.
- Python string truthiness (`if s:`) is modelled as `s ≠ ""`, and optional
  values as `Option`.
- f-string labels are rebuilt with `toString` of the rational payloads; digit
  formatting is not modelled bit-exactly (no claim concerns label text).
-/

namespace Hackathon

/-- Prefix test on character lists (used to embed Python substring search). -/
def listStartsWith : List Char → List Char → Bool
  | [], _ => true
  | _ :: _, [] => false
  | a :: as, b :: bs => a == b && listStartsWith as bs

/-- Substring search on character lists. -/
def charsContain (hay needle : List Char) : Bool :=
  match hay with
  | [] => needle.isEmpty
  | _ :: t => listStartsWith needle hay || charsContain t needle

/-- Embeds the Python `needle in hay` substring test. -/
def strContains (hay needle : String) : Bool :=
  charsContain hay.data needle.data

/-- Python `str.lower()` (core `String.toLower` is re-implemented character
by character so that terms reduce inside the kernel). -/
def strLower (s : String) : String :=
  String.mk (s.data.map Char.toLower)

/-- Python `str.strip()`: drop whitespace from both ends. -/
def strTrim (s : String) : String :=
  String.mk ((((s.data.dropWhile Char.isWhitespace).reverse).dropWhile
    Char.isWhitespace).reverse)

/-- Python `text[:n]` character slicing. -/
def strTake (s : String) (n : ℕ) : String :=
  String.mk (s.data.take n)

/-- Python truthiness of an `Optional[str]`: `None` and `""` are falsy. -/
def optTruthy : Option String → Bool
  | none => false
  | some s => s ≠ ""

/-- Exact rational rounding to 2 decimal places, embedding Python `round(x, 2)`. -/
def round2 (x : ℚ) : ℚ := ((round (x * 100) : ℤ) : ℚ) / 100

/-- Exact rational rounding to 1 decimal place, embedding Python `round(x, 1)`. -/
def round1 (x : ℚ) : ℚ := ((round (x * 10) : ℤ) : ℚ) / 10

/-- A rational is a whole number of cents (the `2 decimal places` predicate). -/
def isCents (x : ℚ) : Prop := (x * 100).den = 1

instance (x : ℚ) : Decidable (isCents x) := by
  unfold isCents; infer_instance

-- ---------------------------------------------------------------------------
-- Quote Engine (src/apps/api/services/quote_engine.py)
-- ---------------------------------------------------------------------------

/-- One priced component of a quote (schemas/lead.py `QuoteLineItemSchema`). -/
structure QuoteLineItemSchema where
  category : String
  label : String
  quantity : ℚ
  unit_price : ℚ
  total : ℚ
  notes : Option String := none
deriving DecidableEq, Repr

/-- The computed quote breakdown (schemas/lead.py `QuoteBreakdown`). -/
structure QuoteBreakdown where
  line_items : List QuoteLineItemSchema
  subtotal : ℚ
  gst : ℚ
  total : ℚ
  currency : String
deriving DecidableEq, Repr

/-- Embedding of `quote_engine.calculate_quote`.  Arguments appear in the
source order; `include_gst` defaults to `true` in the source. -/
def calculate_quote (callout_fee hourly_rate min_labour_hours estimated_hours
    parts_cost markup_pct distance_km travel_rate_per_km : ℚ)
    (include_gst : Bool) : QuoteBreakdown :=
  let labour_hours := max min_labour_hours estimated_hours
  let labour_total := round2 (labour_hours * hourly_rate)
  let items0 : List QuoteLineItemSchema :=
    [{ category := "callout", label := "Call-out Fee", quantity := 1,
       unit_price := callout_fee, total := callout_fee },
     { category := "labour",
       label := "Labour (" ++ toString labour_hours ++ " hrs @ $" ++
         toString hourly_rate ++ "/hr)",
       quantity := labour_hours, unit_price := hourly_rate,
       total := labour_total }]
  let parts_with_markup := round2 (parts_cost * (1 + markup_pct / 100))
  let partsItem : QuoteLineItemSchema :=
    { category := "parts",
      label := "Parts (incl. " ++ toString markup_pct ++ "% markup)",
      quantity := 1, unit_price := parts_with_markup,
      total := parts_with_markup,
      notes := some ("Base parts cost: $" ++ toString parts_cost) }
  let items1 : List QuoteLineItemSchema :=
    if parts_cost > 0 then items0 ++ [partsItem] else items0
  let travel_total := round2 (distance_km * travel_rate_per_km)
  let travelItem : QuoteLineItemSchema :=
    { category := "travel",
      label := "Travel (" ++ toString distance_km ++ " km @ $" ++
        toString travel_rate_per_km ++ "/km)",
      quantity := distance_km, unit_price := travel_rate_per_km,
      total := travel_total }
  let items2 : List QuoteLineItemSchema :=
    if distance_km > 0 ∧ travel_rate_per_km > 0 then items1 ++ [travelItem]
    else items1
  let subtotal := round2 ((items2.map (fun i => i.total)).sum)
  let gst := if include_gst then round2 (subtotal * (1 / 10)) else 0
  let gstItem : QuoteLineItemSchema :=
    { category := "gst", label := "GST (10%)", quantity := 1,
      unit_price := gst, total := gst }
  let items3 : List QuoteLineItemSchema :=
    if include_gst then items2 ++ [gstItem] else items2
  let total := round2 (subtotal + gst)
  { line_items := items3, subtotal := subtotal, gst := gst, total := total,
    currency := "AUD" }

/-- The fixed job-type labour table (`LABOUR_ESTIMATES`). -/
def LABOUR_ESTIMATES : List (String × ℚ) :=
  [("tap_repair", 1), ("tap_replacement", 3/2), ("toilet_repair", 3/2),
   ("toilet_replacement", 5/2), ("blocked_drain", 3/2), ("hot_water_repair", 2),
   ("hot_water_replacement", 4), ("leak_repair", 3/2), ("pipe_burst", 2),
   ("gas_fitting", 5/2), ("general_plumbing", 3/2)]

/-- Embedding of `quote_engine.estimate_labour_hours` (default 1.5). -/
def estimate_labour_hours (job_type : String) : ℚ :=
  match LABOUR_ESTIMATES.find? (fun p => p.1 == job_type) with
  | some p => p.2
  | none => 3/2

-- ---------------------------------------------------------------------------
-- Service-Area Resolver (src/apps/api/services/integrations/distance.py)
-- ---------------------------------------------------------------------------

/-- Result of a distance lookup (`distance.DistanceResult`). -/
structure DistanceResult where
  distance_km : ℚ
  duration_minutes : ℤ
  origin : String := ""
  destination : String := ""
deriving DecidableEq, Repr

/-- Oracles for the distance provider chain.  `none` models an exception
(transport failure, non-OK status, missing rows) at that provider;
`osrmRoute = some none` models an OK response with an empty route list. -/
structure DistanceEnv where
  googleKey : Bool
  googleMatrix : String → String → Option DistanceResult
  geocode : String → Option (ℚ × ℚ)
  osrmRoute : ℚ × ℚ → ℚ × ℚ → Option (Option (ℚ × ℚ))
  haversineKm : ℚ × ℚ → ℚ × ℚ → ℚ

/-- Embedding of `distance._distance_osrm` (geocode both ends, route, then
great-circle fallback).  `haversineKm` abstracts the floating-point trig. -/
def distance_osrm (env : DistanceEnv) (origin destination : String) :
    Except String DistanceResult :=
  match env.geocode origin with
  | none => .error ("OSM geocoding failed for address: " ++ origin)
  | some po =>
    match env.geocode destination with
    | none => .error ("OSM geocoding failed for address: " ++ destination)
    | some pd =>
      match env.osrmRoute po pd with
      | none => .error "OSRM request failed"
      | some (some rt) =>
          .ok { distance_km := round1 (rt.1 / 1000),
                duration_minutes := max 1 (round (rt.2 / 60)),
                origin := origin, destination := destination }
      | some none =>
          let straight := env.haversineKm po pd
          .ok { distance_km := round1 straight,
                duration_minutes := max 1 (round (straight / 40 * 60)),
                origin := origin, destination := destination }

/-- Embedding of `distance.calculate_distance`: reject blank addresses, try
Google (if a key is configured), fall back to OSM geocoding + OSRM. -/
def calculate_distance (env : DistanceEnv) (origin destination : String) :
    Except String DistanceResult :=
  if strTrim origin = "" ∨ strTrim destination = "" then
    .error "Origin and destination are required for distance lookup"
  else if env.googleKey then
    match env.googleMatrix origin destination with
    | some r => .ok r
    | none => distance_osrm env origin destination
  else distance_osrm env origin destination

/-- The OSM + OSRM chain fails to produce any usable distance: a geocode
raised for either endpoint, or the routing request itself raised. -/
def osrmChainFails (env : DistanceEnv) (origin destination : String) : Bool :=
  match env.geocode origin, env.geocode destination with
  | none, _ => true
  | some _, none => true
  | some po, some pd =>
    match env.osrmRoute po pd with
    | none => true
    | some _ => false

-- ---------------------------------------------------------------------------
-- Parts pricing (src/apps/api/services/integrations/pricing.py)
-- ---------------------------------------------------------------------------

/-- A catalogue entry (`pricing.PartPrice`). -/
structure PartPrice where
  sku_class : String
  name : String
  price : ℚ
  source : String := "cached_estimate"
deriving DecidableEq, Repr

/-- The cached parts catalogue (`pricing.PARTS_CATALOGUE`). -/
def PARTS_CATALOGUE : List (String × PartPrice) :=
  [("mixer_tap_15mm", ⟨"mixer_tap_15mm", "Methven Minimalist Basin Mixer Tap", 189, "Bunnings estimate"⟩),
   ("kitchen_mixer", ⟨"kitchen_mixer", "Dorf Flickmixer Kitchen Tap", 159, "Bunnings estimate"⟩),
   ("garden_tap", ⟨"garden_tap", "Brass Hose Cock 15mm", 37/2, "Bunnings estimate"⟩),
   ("tap_washer_kit", ⟨"tap_washer_kit", "Tap Washer Assortment Kit", 89/10, "Bunnings estimate"⟩),
   ("cistern_valve_standard", ⟨"cistern_valve_standard", "Fluidmaster Universal Fill Valve", 29, "Bunnings estimate"⟩),
   ("toilet_seat", ⟨"toilet_seat", "Caroma Soft Close Toilet Seat", 79, "Bunnings estimate"⟩),
   ("wax_ring", ⟨"wax_ring", "Toilet Wax Ring Seal", 25/2, "Bunnings estimate"⟩),
   ("copper_elbow_15mm", ⟨"copper_elbow_15mm", "15mm Copper Elbow 90 deg", 9/2, "Bunnings estimate"⟩),
   ("copper_tee_15mm", ⟨"copper_tee_15mm", "15mm Copper Tee", 29/5, "Bunnings estimate"⟩),
   ("pvc_pipe_50mm", ⟨"pvc_pipe_50mm", "50mm PVC DWV Pipe (1m)", 149/10, "Bunnings estimate"⟩),
   ("pipe_repair_clamp", ⟨"pipe_repair_clamp", "Pipe Repair Clamp 15-22mm", 22, "Bunnings estimate"⟩),
   ("drain_snake_standard", ⟨"drain_snake_standard", "Drain Snake 6m", 35, "Bunnings estimate"⟩),
   ("drain_cleaner", ⟨"drain_cleaner", "Draino Professional Strength 1L", 12, "Bunnings estimate"⟩),
   ("hw_thermostat", ⟨"hw_thermostat", "Hot Water Thermostat Element", 45, "Bunnings estimate"⟩),
   ("hw_anode", ⟨"hw_anode", "Sacrificial Anode Rod", 65, "Bunnings estimate"⟩),
   ("tempering_valve", ⟨"tempering_valve", "Tempering Valve 20mm", 120, "Bunnings estimate"⟩),
   ("ptfe_tape", ⟨"ptfe_tape", "PTFE Thread Tape 12mm", 7/2, "Bunnings estimate"⟩),
   ("silicone_sealant", ⟨"silicone_sealant", "Selleys Wet Area Silicone", 29/2, "Bunnings estimate"⟩)]

/-- Embedding of `pricing.lookup_parts_price`.  `pricingLive` collapses
`settings.pricing_live_enabled and settings.serpapi_api_key`; `livePrice`
is the live-search oracle (`none` = no result or raised). -/
def lookup_parts_price (pricingLive : Bool) (livePrice : String → Option PartPrice)
    (sku_class : Option String) : Option PartPrice :=
  match sku_class with
  | none => none
  | some s =>
    if s = "" then none
    else
      let fromLive := if pricingLive then livePrice s else none
      match fromLive with
      | some live => some live
      | none =>
        match PARTS_CATALOGUE.find? (fun p => p.1 == s) with
        | some p => some p.2
        | none => none

-- ---------------------------------------------------------------------------
-- Classifier fallbacks
-- (src/apps/api/services/ai/langchain_agent.py and
--  src/apps/api/services/lead_orchestrator.py)
-- ---------------------------------------------------------------------------

/-- The closed job-type set of the spec (section 4.2). -/
def jobTypeSet : List String :=
  ["tap_repair", "tap_replacement", "toilet_repair", "toilet_replacement",
   "blocked_drain", "hot_water_repair", "hot_water_replacement", "leak_repair",
   "pipe_burst", "gas_fitting", "roof_plumbing", "bathroom_reno",
   "general_plumbing"]

/-- The closed `UrgencyLevel` enumeration. -/
def urgencyLevelSet : List String :=
  ["emergency", "today", "tomorrow", "this_week", "flexible"]

/-- `langchain_agent._JOB_KEYWORDS` in its source (insertion) order. -/
def agentJobKeywords : List (String × List String) :=
  [("tap_repair", ["tap", "faucet", "drip", "dripping", "washer"]),
   ("tap_replacement", ["replace tap", "new tap", "new faucet"]),
   ("toilet_repair", ["toilet", "cistern", "flush", "running toilet"]),
   ("toilet_replacement", ["replace toilet", "new toilet"]),
   ("blocked_drain", ["blocked", "clogged", "drain", "slow drain", "backed up"]),
   ("hot_water_repair", ["hot water", "no hot water", "warm water", "lukewarm"]),
   ("hot_water_replacement", ["replace hot water", "new hot water system"]),
   ("leak_repair", ["leak", "leaking", "water damage", "drip"]),
   ("pipe_burst", ["burst", "broken pipe", "flooding", "water everywhere"]),
   ("gas_fitting", ["gas", "gas leak", "gas fitting", "gas hot water"]),
   ("roof_plumbing", ["roof", "gutter", "downpipe", "guttering"]),
   ("bathroom_reno", ["renovation", "reno", "bathroom reno", "remodel"]),
   ("general_plumbing", ["plumber", "plumbing"])]

/-- `langchain_agent._URGENCY_KEYWORDS` in its source order. -/
def agentUrgencyKeywords : List (String × List String) :=
  [("emergency", ["emergency", "flood", "flooding", "burst", "gas leak",
    "urgent", "asap", "now"]),
   ("urgent", ["today", "same day", "can\x27t wait", "really need"]),
   ("standard", ["this week", "soon", "couple of days"]),
   ("flexible", ["no rush", "whenever", "next week", "quote", "estimate"])]

/-- `langchain_agent._SUBURB_KEYWORDS`. -/
def agentSuburbKeywords : List String :=
  ["Southport", "Burleigh", "Burleigh Heads", "Miami", "Palm Beach",
   "Mermaid Beach", "Broadbeach", "Surfers Paradise", "Robina",
   "Nerang", "Mudgeeraba", "Currumbin", "Coolangatta", "Varsity Lakes",
   "Helensvale", "Coomera", "Ormeau", "Oxenford", "Labrador"]

/-- Structured classifier output (`langchain_agent.ClassifiedLead`). -/
structure ClassifiedLead where
  job_type : String
  address : String := "unknown"
  suburb : String := "unknown"
  urgency : String := "standard"
  description : String := ""
  parts_needed : List String := []
deriving DecidableEq, Repr

/-- Embedding of `langchain_agent._fallback_classify`: first keyword group
match in source order, else the defaults. -/
def agent_fallback_classify (text : String) : ClassifiedLead :=
  let lower := strLower text
  let job_type :=
    match agentJobKeywords.find? (fun p => p.2.any (fun kw => strContains lower kw)) with
    | some p => p.1
    | none => "general_plumbing"
  let urgency :=
    match agentUrgencyKeywords.find? (fun p => p.2.any (fun kw => strContains lower kw)) with
    | some p => p.1
    | none => "standard"
  let suburb :=
    match agentSuburbKeywords.find? (fun s => strContains lower (strLower s)) with
    | some s => s
    | none => "unknown"
  { job_type := job_type, address := "unknown", suburb := suburb,
    urgency := urgency, description := strTake text 200, parts_needed := [] }

/-- Classifier dict of `lead_orchestrator` (`""` models an absent/falsy key). -/
structure OrchClassified where
  job_type : String
  address : String
  urgency : String
  description : String
deriving DecidableEq, Repr

/-- Upper-case each character that starts the string or follows a space. -/
def titleAfter : Bool → List Char → List Char
  | _, [] => []
  | atWordStart, c :: rest =>
      (if atWordStart then Char.toUpper c else c) :: titleAfter (c == ' ') rest

/-- Python `str.title()` restricted to letter/space words, which covers the
fixed suburb gazetteer it is applied to. -/
def titleCase (s : String) : String :=
  String.mk (titleAfter true s.data)

/-- Job-type branch of `lead_orchestrator._fallback_classify`. -/
def orchJobType (lower : String) : String :=
  if ["tap", "faucet", "mixer"].any (fun w => strContains lower w) then
    if strContains lower "fix" || strContains lower "leak" ||
        strContains lower "repair" then "tap_repair" else "tap_replacement"
  else if ["toilet", "loo", "dunny"].any (fun w => strContains lower w) then
    "toilet_repair"
  else if ["drain", "blocked", "clog"].any (fun w => strContains lower w) then
    "blocked_drain"
  else if ["hot water", "heater"].any (fun w => strContains lower w) then
    "hot_water_repair"
  else if ["leak", "drip"].any (fun w => strContains lower w) then
    "leak_repair"
  else if ["pipe", "burst"].any (fun w => strContains lower w) then
    "pipe_burst"
  else "general_plumbing"

/-- Urgency branch of `lead_orchestrator._fallback_classify`. -/
def orchUrgency (lower : String) : String :=
  if ["urgent", "emergency", "asap", "now"].any (fun w => strContains lower w) then
    "emergency"
  else if strContains lower "today" then "today"
  else if strContains lower "tomorrow" then "tomorrow"
  else "flexible"

/-- Suburb gazetteer of `lead_orchestrator._fallback_classify`. -/
def orchSuburbs : List String :=
  ["burleigh heads", "surfers paradise", "broadbeach", "robina",
   "nerang", "southport", "coolangatta", "palm beach", "mermaid beach",
   "miami", "varsity lakes", "mudgeeraba", "ormeau", "coomera", "helensvale"]

/-- Address branch of `lead_orchestrator._fallback_classify` (first matching
suburb, title-cased; default is the empty string). -/
def orchAddress (lower : String) : String :=
  match orchSuburbs.find? (fun s => strContains lower s) with
  | some s => titleCase s
  | none => ""

/-- Embedding of `lead_orchestrator._fallback_classify`.  The source fills a
result dict field by field; the fields are computed independently. -/
def orch_fallback_classify (text : String) : OrchClassified :=
  let lower := strLower text
  { job_type := orchJobType lower, address := orchAddress lower,
    urgency := orchUrgency lower, description := text }

-- ---------------------------------------------------------------------------
-- Lead model (src/apps/api/models/lead.py) and orchestrator
-- (src/apps/api/services/lead_orchestrator.py)
-- ---------------------------------------------------------------------------

/-- The `LeadStatus` state machine values. -/
inductive LeadStatus where
  | new | details_collected | media_pending | pricing | tradie_review
  | confirmed | booked | rejected | cancelled
deriving DecidableEq, Repr

/-- One role-tagged conversation message (timestamps are not modelled; no
claim concerns them). -/
structure ConvMsg where
  role : String
  text : String
deriving DecidableEq, Repr

/-- The persisted `LeadSession` row (the fields the pipeline reads/writes).
`photoSku` models `photo_analysis["suggested_sku_class"]`; `booked_at` only
records whether the timestamp column was set. -/
structure Lead where
  id : String
  user_profile_id : String
  status : LeadStatus
  customer_name : String := ""
  customer_phone : String := ""
  customer_address : String := ""
  job_type : String := ""
  job_description : String := ""
  urgency : String := ""
  photoSku : Option String := none
  quote_snapshot : Option QuoteBreakdown := none
  quote_total : Option ℚ := none
  distance_km : Option ℚ := none
  travel_minutes : Option ℤ := none
  tradie_decision : Option String := none
  tradie_notes : Option String := none
  tradie_edited_quote : Option QuoteBreakdown := none
  booked_date : Option String := none
  booked_time_slot : Option String := none
  booked_at : Bool := false
  conversation : List ConvMsg := []
deriving DecidableEq, Repr

/-- The owner's `UserProfile` row (pricing/service-area fields). -/
structure UserProfile where
  id : String
  user_id : String
  base_address : String := ""
  service_radius_km : ℚ := 30
  base_callout_fee : ℚ := 80
  hourly_rate : ℚ := 95
  markup_pct : ℚ := 15
  min_labour_hours : ℚ := 1
  travel_rate_per_km : ℚ := 3/2
deriving DecidableEq, Repr

/-- `lead_orchestrator.classify_lead_text`: the LLM outcome is an oracle;
`none` (no key / transport failure / malformed JSON) falls back. -/
def classify_lead_text (llm : Option OrchClassified) (text : String) :
    OrchClassified :=
  match llm with
  | some r => r
  | none => orch_fallback_classify text

/-- The `job_to_sku` guess table inside `process_customer_message`. -/
def jobToSku : String → Option String
  | "tap_repair" => some "tap_washer_kit"
  | "tap_replacement" => some "mixer_tap_15mm"
  | "toilet_repair" => some "cistern_valve_standard"
  | "blocked_drain" => some "drain_snake_standard"
  | "hot_water_repair" => some "hw_thermostat"
  | "leak_repair" => some "pipe_repair_clamp"
  | "pipe_burst" => some "pipe_repair_clamp"
  | _ => none

/-- All non-store effects `process_customer_message` depends on. -/
structure PipelineEnv where
  llm : Option OrchClassified
  distance : DistanceEnv
  pricingLive : Bool := false
  livePrice : String → Option PartPrice := fun _ => none

/-- Outcome of one `process_customer_message` run.  `patches` records the
`LeadPatch.type` strings in emission order; `savedItems` the line items
written to the store; `photoSmsSent` whether the photo-upload SMS was sent. -/
structure PipelineResult where
  lead : Lead
  patches : List String
  savedItems : List QuoteLineItemSchema
  photoSmsSent : Bool
  profileFound : Bool
deriving Repr

/-- Embedding of `lead_orchestrator.process_customer_message`.  The store
reads are parameters (`profileLookup` is the `UserProfile` query result); an
exception from `calculate_distance` propagates as `.error`. -/
def process_customer_message (env : PipelineEnv)
    (profileLookup : Option UserProfile) (lead : Lead) (message : String) :
    Except String PipelineResult :=
  let lead := { lead with
    conversation := lead.conversation ++
      [({ role := "customer", text := message } : ConvMsg)] }
  let cls := classify_lead_text env.llm message
  let lead := { lead with
    job_type := if cls.job_type ≠ "" then cls.job_type else lead.job_type,
    customer_address :=
      if cls.address ≠ "" then cls.address else lead.customer_address,
    urgency := if cls.urgency ≠ "" then cls.urgency else lead.urgency,
    job_description :=
      if cls.description ≠ "" then cls.description else lead.job_description,
    status := LeadStatus.details_collected }
  let patches0 := ["step_changed", "lead_update"]
  let photoSms := lead.customer_phone ≠ ""
  let lead := if lead.customer_phone ≠ ""
    then { lead with status := LeadStatus.media_pending } else lead
  let patches1 := if photoSms then patches0 ++ ["step_changed"] else patches0
  let lead := { lead with status := LeadStatus.pricing }
  let patches2 := patches1 ++ ["step_changed"]
  match profileLookup with
  | none =>
      .ok { lead := lead, patches := patches2, savedItems := [],
            photoSmsSent := photoSms, profileFound := false }
  | some profile =>
    let sku : Option String :=
      match lead.photoSku with
      | some s => if s ≠ "" then some s else jobToSku lead.job_type
      | none => jobToSku lead.job_type
    let parts_price : ℚ :=
      match lookup_parts_price env.pricingLive env.livePrice sku with
      | some p => p.price
      | none => 0
    match calculate_distance env.distance profile.base_address lead.customer_address with
    | .error e => .error e
    | .ok dist =>
      let lead := { lead with
        distance_km := some dist.distance_km,
        travel_minutes := some dist.duration_minutes }
      let patches3 := patches2 ++ ["step_changed"]
      let quote := calculate_quote profile.base_callout_fee profile.hourly_rate
        profile.min_labour_hours (estimate_labour_hours lead.job_type)
        parts_price profile.markup_pct dist.distance_km
        profile.travel_rate_per_km true
      let lead := { lead with
        quote_snapshot := some quote,
        quote_total := some quote.total,
        status := LeadStatus.tradie_review }
      let lead := { lead with conversation := lead.conversation ++
        [{ role := "assistant",
           text := "Based on the details, the estimated quote is $" ++
             toString quote.total ++
             " (incl. GST). The tradie will review and confirm shortly." }] }
      .ok { lead := lead, patches := patches3 ++ ["quote_ready"],
            savedItems := quote.line_items, photoSmsSent := photoSms,
            profileFound := true }

-- ---------------------------------------------------------------------------
-- Tradie decision (lead_orchestrator.handle_tradie_decision and
-- routers/leads.py submit_tradie_decision)
-- ---------------------------------------------------------------------------

/-- `TradieDecisionEnum`. -/
inductive TradieDecisionEnum where
  | approve | edit | reject
deriving DecidableEq, Repr

/-- String value of a decision (the `.value` written to the row). -/
def TradieDecisionEnum.val : TradieDecisionEnum → String
  | .approve => "approve"
  | .edit => "edit"
  | .reject => "reject"

/-- The `TradieDecision` request body. -/
structure TradieDecision where
  decision : TradieDecisionEnum
  notes : Option String := none
  edited_quote : Option QuoteBreakdown := none
  booked_date : Option String := none
  booked_time_slot : Option String := none
deriving DecidableEq, Repr

/-- Outcome of `handle_tradie_decision`: the mutated lead, the patch types
emitted, and whether the booking-confirmation SMS was sent. -/
structure DecisionResult where
  lead : Lead
  patches : List String
  bookingSmsSent : Bool
deriving Repr

/-- Embedding of `lead_orchestrator.handle_tradie_decision`.  Note the source
consults only the decision — it never reads the lead's current status. -/
def handle_tradie_decision (lead : Lead) (decision : TradieDecision) :
    DecisionResult :=
  let lead := { lead with
    tradie_decision := some decision.decision.val,
    tradie_notes := decision.notes }
  match decision.decision with
  | .approve =>
    let lead := { lead with status := LeadStatus.confirmed }
    if optTruthy decision.booked_date ∧ optTruthy decision.booked_time_slot then
      let lead := { lead with
        booked_date := decision.booked_date,
        booked_time_slot := decision.booked_time_slot,
        booked_at := true, status := LeadStatus.booked }
      { lead := lead, patches := ["booking_confirmed"],
        bookingSmsSent := lead.customer_phone ≠ "" }
    else
      { lead := lead, patches := ["booking_confirmed"], bookingSmsSent := false }
  | .edit =>
    let lead :=
      match decision.edited_quote with
      | some q =>
        { lead with
          tradie_edited_quote := some q, quote_total := some q.total }
      | none => lead
    let lead := { lead with status := LeadStatus.tradie_review }
    { lead := lead, patches := ["quote_updated"], bookingSmsSent := false }
  | .reject =>
    let lead := { lead with status := LeadStatus.rejected }
    { lead := lead, patches := ["lead_rejected"], bookingSmsSent := false }

/-- The store state the decision route touches. -/
structure Db where
  leads : List Lead
  profiles : List UserProfile
deriving Repr

/-- An HTTP error response raised by the route. -/
structure HttpError where
  code : ℕ
  detail : String
deriving DecidableEq, Repr

/-- Embedding of `routers/leads.py submit_tradie_decision`: look the lead up,
verify the acting user owns it (403 otherwise), then apply
`handle_tradie_decision` and commit the mutated lead. -/
def submit_tradie_decision (db : Db) (userId leadId : String)
    (decision : TradieDecision) : Except HttpError (Db × List String) :=
  match db.leads.find? (fun l => l.id == leadId) with
  | none => .error { code := 404, detail := "Lead not found" }
  | some lead =>
    match db.profiles.find? (fun p =>
        p.id == lead.user_profile_id && p.user_id == userId) with
    | none => .error { code := 403, detail := "Not your lead" }
    | some _ =>
      let r := handle_tradie_decision lead decision
      let newLeads := db.leads.map (fun l => if l.id == leadId then r.lead else l)
      .ok ({ db with leads := newLeads }, r.patches)

-- ---------------------------------------------------------------------------
-- Voice call session (src/apps/api/services/voice/media_stream.py)
-- ---------------------------------------------------------------------------

/-- The tradie context dict fields the voice pipeline reads (`.get` with
defaults is modelled through `Option`). -/
structure TradieCtx where
  business_name : Option String := none
  base_address : Option String := none
  service_radius_km : Option ℚ := none
  tradie_id : Option String := none
deriving Repr

/-- Per-call state (`media_stream.CallSession`; audio identifiers and the
interim buffer carry no logic beyond storage). -/
structure CallSession where
  final_transcript : String := ""
  transcript_buffer : String := ""
  confidence_sum : ℚ := 0
  confidence_count : ℕ := 0
  greeting_sent : Bool := false
  classified : Bool := false
  is_speaking : Bool := false
  customer_speaking : Bool := false
  classificationResult : Option ClassifiedLead := none
  caller : String := "unknown"
deriving Repr

/-- The freshly allocated session handed to `handle_media_stream`. -/
def initSession : CallSession := {}

/-- `CallSession.avg_confidence`. -/
def avg_confidence (s : CallSession) : ℚ :=
  if s.confidence_count = 0 then 0 else s.confidence_sum / s.confidence_count

/-- Embedding of the `on_transcript` Deepgram callback. -/
def on_transcript (s : CallSession) (text : String) (confidence : ℚ)
    (is_final : Bool) : CallSession :=
  let s := { s with customer_speaking := true }
  if is_final then
    { s with
      final_transcript := strTrim (s.final_transcript ++ " " ++ text),
      confidence_sum := s.confidence_sum + confidence,
      confidence_count := s.confidence_count + 1 }
  else
    { s with transcript_buffer := text }

/-- Embedding of the `on_utterance_end` callback: `some t` means a
`("process", t)` item was enqueued for `_process_and_respond`. -/
def on_utterance_end (s : CallSession) : CallSession × Option String :=
  let s := { s with customer_speaking := false }
  let transcript := strTrim s.final_transcript
  if transcript = "" ∨ transcript.data.length < 5 then (s, none)
  else if s.classified then (s, none)
  else (s, some transcript)

/-- Which return path `_process_and_respond` took. -/
inductive VoicePath where
  | repeatRequest | outOfArea | acknowledged
deriving DecidableEq, Repr

/-- Outcome of one `_process_and_respond` run. -/
structure VoiceResult where
  session : CallSession
  classifierInvoked : Bool
  path : VoicePath
  photoSmsSent : Bool
deriving Repr

/-- `langchain_agent.classify_lead` wrapped in the `try/except` of the call
site: an LLM oracle value is used as-is, any failure or absent key lands in
`_fallback_classify`. -/
def classify_lead (llm : Option ClassifiedLead) (text : String) : ClassifiedLead :=
  match llm with
  | some r => r
  | none => agent_fallback_classify text

/-- The acknowledgment tail of `_process_and_respond` (slot talk, photo-link
SMS, spoken summary, conversation append). -/
def voiceAck (s : CallSession) : VoiceResult :=
  { session := s, classifierInvoked := true, path := VoicePath.acknowledged,
    photoSmsSent := s.caller ≠ "unknown" }

/-- Embedding of `media_stream._process_and_respond`. -/
def voice_process_and_respond (ctx : TradieCtx) (env : DistanceEnv)
    (llm : Option ClassifiedLead) (s : CallSession) (transcript : String) :
    VoiceResult :=
  if avg_confidence s < 3/10 ∧ 0 < s.confidence_count then
    { session := { s with
        final_transcript := "", confidence_sum := 0, confidence_count := 0 },
      classifierInvoked := false, path := VoicePath.repeatRequest,
      photoSmsSent := false }
  else
    let classified := classify_lead llm transcript
    let s := { s with classificationResult := some classified, classified := true }
    let service_radius := ctx.service_radius_km.getD 50
    let base_address := ctx.base_address.getD ""
    if classified.suburb ≠ "" ∧ classified.suburb ≠ "unknown" ∧ base_address ≠ "" then
      match calculate_distance env base_address classified.suburb with
      | .ok dist =>
        if dist.distance_km > service_radius then
          { session := s, classifierInvoked := true,
            path := VoicePath.outOfArea, photoSmsSent := false }
        else voiceAck s
      | .error _ => voiceAck s
    else voiceAck s

/-- The owner-facing lead dict assembled by `media_stream._broadcast_lead`
(only the fields claims mention). -/
structure BroadcastLead where
  id : String
  status : String
  jobType : String
  urgency : String
  quoteLines : List QuoteLineItemSchema
deriving Repr

/-- Embedding of `_broadcast_lead`: broadcast only if a classification was
stored; the payload always carries `status = "new"` and no quote lines. -/
def broadcast_lead (leadId : String) (s : CallSession) : Option BroadcastLead :=
  match s.classificationResult with
  | none => none
  | some c =>
      some { id := leadId, status := "new", jobType := c.job_type,
             urgency := c.urgency, quoteLines := [] }

/-- States a call session can be in, starting from allocation: transcript
callbacks, utterance ends, and utterance processing (the queue decouples the
processed transcript from the state, so any `t` may be processed). -/
inductive SessionReachable : CallSession → Prop where
  | init : SessionReachable initSession
  | transcriptStep (s : CallSession) (text : String) (confidence : ℚ)
      (is_final : Bool) : SessionReachable s →
      SessionReachable (on_transcript s text confidence is_final)
  | utteranceStep (s : CallSession) : SessionReachable s →
      SessionReachable (on_utterance_end s).1
  | processStep (ctx : TradieCtx) (env : DistanceEnv)
      (llm : Option ClassifiedLead) (s : CallSession) (t : String) :
      SessionReachable s →
      SessionReachable (voice_process_and_respond ctx env llm s t).session

-- ---------------------------------------------------------------------------
-- Broadcast registry (src/apps/api/services/realtime/connection_manager.py)
-- ---------------------------------------------------------------------------

/-- A WebSocket handle. -/
abbrev Socket : Type := ℕ

/-- The `ConnectionManager._connections` dict: insertion-ordered association
list from tradie id to that owner's connected sockets. -/
abbrev Registry : Type := List (String × List Socket)

/-- First-match association-list lookup (`dict.get`). -/
def lookupConns : Registry → String → Option (List Socket)
  | [], _ => none
  | (k, v) :: rest, t => if k = t then some v else lookupConns rest t

/-- Replace the stored list for an existing key (dict entry mutation). -/
def setConns : Registry → String → List Socket → Registry
  | [], _, _ => []
  | (k, v) :: rest, t, c =>
      if k = t then (k, c) :: rest else (k, v) :: setConns rest t c

/-- Delete a key (`del self._connections[tradie_id]`). -/
def delConns (m : Registry) (t : String) : Registry :=
  m.filter (fun p => ¬ p.1 = t)

/-- Embedding of `ConnectionManager.connect` (the `websocket.accept()` await
is connection plumbing with no registry effect). -/
def connect (m : Registry) (t : String) (ws : Socket) : Registry :=
  match lookupConns m t with
  | some c => setConns m t (c ++ [ws])
  | none => m ++ [(t, [ws])]

/-- Embedding of `ConnectionManager.disconnect`: remove the socket if
present, and drop the owner's key once its list is empty. -/
def disconnect (m : Registry) (t : String) (ws : Socket) : Registry :=
  match lookupConns m t with
  | none => m
  | some c =>
    let c2 := c.erase ws
    if c2 = [] then delConns m t else setConns m t c2

/-- Outcome of `ConnectionManager.send_to_tradie`: which sockets the loop
attempted, which `send_text` calls succeeded, and the cleaned-up registry. -/
structure SendOutcome where
  attempted : List Socket
  delivered : List Socket
  registry : Registry
deriving Repr

/-- Embedding of `ConnectionManager.send_to_tradie` with a send-failure
oracle `fails` (true models `ws.send_text` raising): every socket in the
owner's list is attempted in order, failures are collected and disconnected
after the loop. -/
def send_to_tradie (m : Registry) (t : String) (fails : Socket → Bool) :
    SendOutcome :=
  let conns := (lookupConns m t).getD []
  let dead := conns.filter (fun ws => fails ws)
  { attempted := conns,
    delivered := conns.filter (fun ws => ¬ fails ws),
    registry := dead.foldl (fun acc ws => disconnect acc t ws) m }

/-- `ConnectionManager.active_count`. -/
def active_count (m : Registry) : ℕ :=
  (m.map (fun p => p.2.length)).sum

/-- `ConnectionManager.connected_tradies`. -/
def connected_tradies (m : Registry) : List String :=
  m.map (fun p => p.1)

/-- The registry is a well-formed dict: one entry per key. -/
def KeysNodup (m : Registry) : Prop :=
  (m.map (fun p => p.1)).Nodup

/-- The claimed invariant: no owner key maps to an empty socket list. -/
def NoEmptyOwner (m : Registry) : Prop :=
  ∀ p ∈ m, p.2 ≠ ([] : List Socket)

-- ---------------------------------------------------------------------------
-- Concrete instances used by counterexamples and witnesses
-- ---------------------------------------------------------------------------

/-- A distance environment whose Google provider resolves every pair to
60 km / 55 min. -/
def envGoogle60 : DistanceEnv :=
  { googleKey := true,
    googleMatrix := fun o d =>
      some { distance_km := 60, duration_minutes := 55, origin := o,
             destination := d },
    geocode := fun _ => none, osrmRoute := fun _ _ => none,
    haversineKm := fun _ _ => 0 }

/-- A distance environment where every provider fails. -/
def envAllFail : DistanceEnv :=
  { googleKey := false, googleMatrix := fun _ _ => none,
    geocode := fun _ => none, osrmRoute := fun _ _ => none,
    haversineKm := fun _ _ => 0 }

/-- An LLM classifier outcome naming a suburb 60 km away. -/
def clsDrain : OrchClassified :=
  { job_type := "blocked_drain", address := "Coolangatta", urgency := "today",
    description := "blocked drain at my place" }

/-- Pipeline environment: LLM returns `clsDrain`, distance resolves 60 km. -/
def pipelineEnv60 : PipelineEnv :=
  { llm := some clsDrain, distance := envGoogle60 }

/-- A fresh lead as `create_lead` would produce it. -/
def lead0 : Lead :=
  { id := "L0", user_profile_id := "P1", status := LeadStatus.new,
    customer_phone := "+61400000000" }

/-- The owning business profile with a 35 km service radius. -/
def profile1 : UserProfile :=
  { id := "P1", user_id := "U1", base_address := "8 Base St Southport",
    service_radius_km := 35 }

/-- Projection of a pipeline run onto the resulting lead. -/
def pipelineLead (r : Except String PipelineResult) : Option Lead :=
  match r with
  | .ok x => some x.lead
  | .error _ => none

/-- A lead already in the terminal `REJECTED` state. -/
def leadRejected : Lead :=
  { id := "L1", user_profile_id := "P1", status := LeadStatus.rejected }

/-- Store holding the rejected lead owned by user `U1` via `profile1`. -/
def db0 : Db := { leads := [leadRejected], profiles := [profile1] }

/-- An approval decision carrying no booking fields. -/
def approveBare : TradieDecision := { decision := TradieDecisionEnum.approve }

/-- Status of a lead after a decision round-trips through the route. -/
def decidedStatus (db : Db) (uid lid : String) (dec : TradieDecision) :
    Option LeadStatus :=
  match submit_tradie_decision db uid lid dec with
  | .ok (db2, _) =>
    match db2.leads.find? (fun l => l.id == lid) with
    | some l => some l.status
    | none => none
  | .error _ => none

/-- A lead awaiting review that has no customer phone number on file. -/
def leadReviewNoPhone : Lead :=
  { id := "L2", user_profile_id := "P1", status := LeadStatus.tradie_review,
    customer_phone := "" }

/-- An approval decision carrying a booking date and time slot. -/
def approveBooked : TradieDecision :=
  { decision := TradieDecisionEnum.approve,
    booked_date := some "2026-10-20", booked_time_slot := some "08:00-10:00" }

/-- Session after one final low-confidence transcript fragment. -/
def sessionLowConf : CallSession :=
  on_transcript initSession "burst pipe at my place" (18/100) true

/-- Session after one final high-confidence transcript fragment. -/
def sessionHighConf : CallSession :=
  on_transcript initSession "burst pipe at my place" (9/10) true

/-- Tradie context for the voice pipeline: base address set, radius 35 km. -/
def ctxVoice : TradieCtx :=
  { business_name := some "Acme Plumbing",
    base_address := some "8 Base St Southport",
    service_radius_km := some 35, tradie_id := some "T1" }

/-- LLM voice classification naming the out-of-area suburb. -/
def clsVoice : ClassifiedLead :=
  { job_type := "blocked_drain", address := "5 High St",
    suburb := "Coolangatta", urgency := "today",
    description := "blocked drain", parts_needed := [] }

/-- Registry with one owner holding two sockets and another holding one. -/
def reg0 : Registry := [("T1", [1, 2]), ("T2", [5])]

/-- Send-failure oracle: only socket 1 fails. -/
def failsOne : Socket → Bool := fun ws => ws == 1

-- ---------------------------------------------------------------------------
-- Rounding lemmas
-- ---------------------------------------------------------------------------

theorem isCents_iff (x : ℚ) : isCents x ↔ ∃ n : ℤ, x = (n : ℚ) / 100 := by
  constructor
  · intro h
    refine ⟨(x * 100).num, ?_⟩
    have h2 : ((x * 100).num : ℚ) = x * 100 := (Rat.den_eq_one_iff _).mp h
    rw [h2]; ring
  · rintro ⟨n, rfl⟩
    unfold isCents
    have h3 : (n : ℚ) / 100 * 100 = (n : ℚ) := by ring
    rw [h3, Rat.den_intCast]

theorem isCents_round2 (x : ℚ) : isCents (round2 x) :=
  (isCents_iff _).mpr ⟨round (x * 100), rfl⟩

theorem round2_of_isCents {x : ℚ} (h : isCents x) : round2 x = x := by
  obtain ⟨n, rfl⟩ := (isCents_iff x).mp h
  unfold round2
  have h3 : (n : ℚ) / 100 * 100 = (n : ℚ) := by ring
  rw [h3, round_intCast]

theorem isCents_zero : isCents 0 :=
  (isCents_iff _).mpr ⟨0, by norm_num⟩

theorem isCents_add {a b : ℚ} (ha : isCents a) (hb : isCents b) :
    isCents (a + b) := by
  obtain ⟨n, rfl⟩ := (isCents_iff a).mp ha
  obtain ⟨m, rfl⟩ := (isCents_iff b).mp hb
  exact (isCents_iff _).mpr ⟨n + m, by push_cast; ring⟩

theorem not_isCents_half_cent : ¬ isCents (16001 / 200 : ℚ) := by
  rw [isCents_iff]
  rintro ⟨n, hn⟩
  have h2 : (16001 : ℚ) * 100 = (n : ℚ) * 200 := by
    field_simp at hn
    linarith
  have h3 : (1600100 : ℤ) = n * 200 := by exact_mod_cast h2
  omega

-- ---------------------------------------------------------------------------
-- Quote-engine lemmas
-- ---------------------------------------------------------------------------

theorem quote_total_eq (cf hr mlh eh pc mp dk tr : ℚ) (ig : Bool) :
    (calculate_quote cf hr mlh eh pc mp dk tr ig).total =
      (calculate_quote cf hr mlh eh pc mp dk tr ig).subtotal +
      (calculate_quote cf hr mlh eh pc mp dk tr ig).gst := by
  simp only [calculate_quote]
  apply round2_of_isCents
  apply isCents_add (isCents_round2 _)
  cases ig
  · simpa using isCents_zero
  · simpa using isCents_round2 _

theorem quote_subtotal_eq (cf hr mlh eh pc mp dk tr : ℚ) (ig : Bool) :
    (calculate_quote cf hr mlh eh pc mp dk tr ig).subtotal =
      round2 ((((calculate_quote cf hr mlh eh pc mp dk tr ig).line_items.filter
        (fun i => i.category != "gst")).map (fun i => i.total)).sum) := by
  simp only [calculate_quote]
  split_ifs <;> simp [List.filter]

theorem quote_gst_on (cf hr mlh eh pc mp dk tr : ℚ) (ig : Bool) (h : ig = true) :
    (calculate_quote cf hr mlh eh pc mp dk tr ig).gst =
      round2 ((calculate_quote cf hr mlh eh pc mp dk tr ig).subtotal * (1 / 10)) := by
  subst h; simp only [calculate_quote]; simp

theorem quote_gst_off (cf hr mlh eh pc mp dk tr : ℚ) (ig : Bool) (h : ig = false) :
    (calculate_quote cf hr mlh eh pc mp dk tr ig).gst = 0 := by
  subst h; simp only [calculate_quote]; simp

theorem quote_head_callout (cf hr mlh eh pc mp dk tr : ℚ) (ig : Bool) :
    ((calculate_quote cf hr mlh eh pc mp dk tr ig).line_items.head?).map
      (fun i => i.total) = some cf := by
  simp only [calculate_quote]
  split_ifs <;> simp

theorem quote_labour_total (cf hr mlh eh pc mp dk tr : ℚ) (ig : Bool) :
    ((calculate_quote cf hr mlh eh pc mp dk tr ig).line_items.map
      (fun i => i.total)).get? 1 = some (round2 (max mlh eh * hr)) := by
  simp only [calculate_quote]
  split_ifs <;> simp

theorem quote_parts_line (cf hr mlh eh pc mp dk tr : ℚ) (ig : Bool)
    (h : pc > 0) :
    ∃ it ∈ (calculate_quote cf hr mlh eh pc mp dk tr ig).line_items,
      it.category = "parts" ∧ it.total = round2 (pc * (1 + mp / 100)) := by
  simp only [calculate_quote]
  split_ifs <;> simp_all

theorem quote_travel_line (cf hr mlh eh pc mp dk tr : ℚ) (ig : Bool)
    (h : dk > 0 ∧ tr > 0) :
    ∃ it ∈ (calculate_quote cf hr mlh eh pc mp dk tr ig).line_items,
      it.category = "travel" ∧ it.total = round2 (dk * tr) := by
  simp only [calculate_quote]
  split_ifs <;> simp_all

theorem quote_lines_cents (cf hr mlh eh pc mp dk tr : ℚ) (ig : Bool) :
    ∀ it ∈ (calculate_quote cf hr mlh eh pc mp dk tr ig).line_items,
      it.category ≠ "callout" → isCents it.total := by
  simp only [calculate_quote]
  split_ifs <;> intro it hit hcat <;> fin_cases hit <;>
    first
      | exact absurd rfl hcat
      | exact isCents_round2 _

/-- Claim C4, counterexample to the claim as stated: with a callout fee that
is not a whole number of cents (80.005), the stored call-out line total is the
fee passed through unrounded, so not every line total of `calculate_quote` is
rounded to 2 decimals. -/
theorem C4_counterexample :
    ¬ (∀ it ∈ (calculate_quote (16001 / 200) 95 1 1 0 15 0 (3 / 2)
        true).line_items, isCents it.total) := by
  intro h
  apply not_isCents_half_cent
  have hhead := quote_head_callout (16001 / 200) 95 1 1 0 15 0 (3 / 2) true
  rcases hh : (calculate_quote (16001 / 200) 95 1 1 0 15 0 (3 / 2)
      true).line_items with _ | ⟨it0, rest⟩
  · rw [hh] at hhead; simp at hhead
  · rw [hh] at hhead
    have hit : it0.total = 16001 / 200 := by
      simpa using hhead
    have := h it0 (by rw [hh]; exact List.mem_cons_self _ _)
    rwa [hit] at this

/-- Claim C4 (amended: the call-out line passes the configured fee through
unrounded; every other line is rounded): `calculate_quote` is a pure function
of its arguments; the labour, parts, travel and GST line totals are each
rounded to 2 decimals; the labour line is `max(min_labour_hours,
estimated_hours) * hourly_rate` rounded; the parts line is
`parts_cost * (1 + markup_pct/100)` rounded and present exactly when a part
cost was identified; the travel line is `distance_km * travel_rate_per_km`
rounded; the subtotal is the rounded sum of the stored pre-GST line totals;
GST is 10% of that subtotal rounded; and `subtotal + gst = total` exactly. -/
theorem C4_quote_engine (cf hr mlh eh pc mp dk tr : ℚ) (ig : Bool) :
    (∀ it ∈ (calculate_quote cf hr mlh eh pc mp dk tr ig).line_items,
        it.category ≠ "callout" → isCents it.total) ∧
    ((calculate_quote cf hr mlh eh pc mp dk tr ig).line_items.head?).map
        (fun i => i.total) = some cf ∧
    ((calculate_quote cf hr mlh eh pc mp dk tr ig).line_items.map
        (fun i => i.total)).get? 1 = some (round2 (max mlh eh * hr)) ∧
    (pc > 0 → ∃ it ∈ (calculate_quote cf hr mlh eh pc mp dk tr ig).line_items,
        it.category = "parts" ∧ it.total = round2 (pc * (1 + mp / 100))) ∧
    (dk > 0 ∧ tr > 0 →
      ∃ it ∈ (calculate_quote cf hr mlh eh pc mp dk tr ig).line_items,
        it.category = "travel" ∧ it.total = round2 (dk * tr)) ∧
    (calculate_quote cf hr mlh eh pc mp dk tr ig).subtotal =
      round2 ((((calculate_quote cf hr mlh eh pc mp dk tr ig).line_items.filter
        (fun i => i.category != "gst")).map (fun i => i.total)).sum) ∧
    (ig = true → (calculate_quote cf hr mlh eh pc mp dk tr ig).gst =
      round2 ((calculate_quote cf hr mlh eh pc mp dk tr ig).subtotal * (1 / 10))) ∧
    (ig = false → (calculate_quote cf hr mlh eh pc mp dk tr ig).gst = 0) ∧
    (calculate_quote cf hr mlh eh pc mp dk tr ig).total =
      (calculate_quote cf hr mlh eh pc mp dk tr ig).subtotal +
      (calculate_quote cf hr mlh eh pc mp dk tr ig).gst :=
  ⟨quote_lines_cents cf hr mlh eh pc mp dk tr ig,
   quote_head_callout cf hr mlh eh pc mp dk tr ig,
   quote_labour_total cf hr mlh eh pc mp dk tr ig,
   fun h => quote_parts_line cf hr mlh eh pc mp dk tr ig h,
   fun h => quote_travel_line cf hr mlh eh pc mp dk tr ig h,
   quote_subtotal_eq cf hr mlh eh pc mp dk tr ig,
   quote_gst_on cf hr mlh eh pc mp dk tr ig,
   quote_gst_off cf hr mlh eh pc mp dk tr ig,
   quote_total_eq cf hr mlh eh pc mp dk tr ig⟩

/-- Witness for C4 at concrete rates (parts identified, travel due, GST on). -/
theorem C4_quote_engine_witness :
    (calculate_quote 80 95 1 (3 / 2) 30 15 10 (3 / 2) true).total =
      (calculate_quote 80 95 1 (3 / 2) 30 15 10 (3 / 2) true).subtotal +
      (calculate_quote 80 95 1 (3 / 2) 30 15 10 (3 / 2) true).gst ∧
    (∃ it ∈ (calculate_quote 80 95 1 (3 / 2) 30 15 10 (3 / 2) true).line_items,
        it.category = "parts" ∧ it.total = round2 (30 * (1 + 15 / 100))) ∧
    (calculate_quote 80 95 1 (3 / 2) 30 15 10 (3 / 2) true).gst =
      round2 ((calculate_quote 80 95 1 (3 / 2) 30 15 10 (3 / 2) true).subtotal
        * (1 / 10)) :=
  ⟨(C4_quote_engine 80 95 1 (3 / 2) 30 15 10 (3 / 2) true).2.2.2.2.2.2.2.2,
   (C4_quote_engine 80 95 1 (3 / 2) 30 15 10 (3 / 2) true).2.2.2.1
     (by norm_num),
   (C4_quote_engine 80 95 1 (3 / 2) 30 15 10 (3 / 2) true).2.2.2.2.2.2.1 rfl⟩

-- ---------------------------------------------------------------------------
-- Classifier-fallback lemmas
-- ---------------------------------------------------------------------------

theorem orchJobType_mem (lower : String) : orchJobType lower ∈ jobTypeSet := by
  unfold orchJobType jobTypeSet
  split_ifs <;> simp

theorem orchUrgency_mem (lower : String) :
    orchUrgency lower ∈ urgencyLevelSet := by
  unfold orchUrgency urgencyLevelSet
  split_ifs <;> simp

theorem agentJob_mem (text : String) :
    (agent_fallback_classify text).job_type ∈ jobTypeSet := by
  simp only [agent_fallback_classify]
  rcases hfind : agentJobKeywords.find?
      (fun p => p.2.any fun kw => strContains (strLower text) kw) with _ | p
  · simp [hfind, jobTypeSet]
  · have hp := List.mem_of_find?_eq_some hfind
    have hall : ∀ q ∈ agentJobKeywords, q.1 ∈ jobTypeSet := by decide
    simpa [hfind] using hall p hp

theorem agentUrgency_mem (text : String) :
    (agent_fallback_classify text).urgency ∈
      ["emergency", "urgent", "standard", "flexible"] := by
  simp only [agent_fallback_classify]
  rcases hfind : agentUrgencyKeywords.find?
      (fun p => p.2.any fun kw => strContains (strLower text) kw) with _ | p
  · simp [hfind]
  · have hp := List.mem_of_find?_eq_some hfind
    have hall : ∀ q ∈ agentUrgencyKeywords,
        q.1 ∈ ["emergency", "urgent", "standard", "flexible"] := by decide
    simpa [hfind] using hall p hp

theorem agentJob_default (text : String)
    (h : agentJobKeywords.find?
      (fun p => p.2.any fun kw => strContains (strLower text) kw) = none) :
    (agent_fallback_classify text).job_type = "general_plumbing" := by
  simp [agent_fallback_classify, h]

theorem agentUrgency_default (text : String)
    (h : agentUrgencyKeywords.find?
      (fun p => p.2.any fun kw => strContains (strLower text) kw) = none) :
    (agent_fallback_classify text).urgency = "standard" := by
  simp [agent_fallback_classify, h]

theorem orchJob_default (text : String)
    (h : (["tap", "faucet", "mixer", "toilet", "loo", "dunny", "drain",
      "blocked", "clog", "hot water", "heater", "leak", "drip", "pipe",
      "burst"].all (fun w => !(strContains (strLower text) w))) = true) :
    (orch_fallback_classify text).job_type = "general_plumbing" := by
  simp only [List.all_cons, List.all_nil, Bool.and_eq_true,
    Bool.not_eq_true'] at h
  obtain ⟨h1, h2, h3, h4, h5, h6, h7, h8, h9, h10, h11, h12, h13, h14, h15, -⟩ := h
  simp [orch_fallback_classify, orchJobType, h1, h2, h3, h4, h5, h6, h7, h8,
    h9, h10, h11, h12, h13, h14, h15]

theorem orchUrgency_default (text : String)
    (h : (["urgent", "emergency", "asap", "now", "today", "tomorrow"].all
      (fun w => !(strContains (strLower text) w))) = true) :
    (orch_fallback_classify text).urgency = "flexible" := by
  simp only [List.all_cons, List.all_nil, Bool.and_eq_true,
    Bool.not_eq_true'] at h
  obtain ⟨h1, h2, h3, h4, h5, h6, -⟩ := h
  simp [orch_fallback_classify, orchUrgency, h1, h2, h3, h4, h5, h6]

/-- Claim C3, counterexample to the claim as stated: on input with no
keyword, the `langchain_agent` fallback defaults urgency to `"standard"`,
which is not in the closed `UrgencyLevel` set (and is not `"flexible"`). -/
theorem C3_counterexample :
    (agent_fallback_classify "zzzz").urgency = "standard" ∧
    (agent_fallback_classify "zzzz").urgency ∉ urgencyLevelSet := by
  constructor
  · decide
  · decide

/-- Claim C3 (amended): both deterministic fallbacks are total and pure; both
always yield a job type in the closed job-type set, defaulting to
`general_plumbing`; the orchestrator fallback always yields an urgency in the
closed `UrgencyLevel` set, defaulting to `flexible`; but the
`langchain_agent` fallback draws its urgency from
`{emergency, urgent, standard, flexible}` with default `standard`, which is
not the `UrgencyLevel` set. -/
theorem C3_fallback_totality (text : String) :
    (orch_fallback_classify text).job_type ∈ jobTypeSet ∧
    (orch_fallback_classify text).urgency ∈ urgencyLevelSet ∧
    (agent_fallback_classify text).job_type ∈ jobTypeSet ∧
    (agent_fallback_classify text).urgency ∈
      ["emergency", "urgent", "standard", "flexible"] ∧
    (agentJobKeywords.find?
        (fun p => p.2.any fun kw => strContains (strLower text) kw) = none →
      (agent_fallback_classify text).job_type = "general_plumbing") ∧
    (agentUrgencyKeywords.find?
        (fun p => p.2.any fun kw => strContains (strLower text) kw) = none →
      (agent_fallback_classify text).urgency = "standard") ∧
    ((["tap", "faucet", "mixer", "toilet", "loo", "dunny", "drain", "blocked",
        "clog", "hot water", "heater", "leak", "drip", "pipe", "burst"].all
        (fun w => !(strContains (strLower text) w))) = true →
      (orch_fallback_classify text).job_type = "general_plumbing") ∧
    ((["urgent", "emergency", "asap", "now", "today", "tomorrow"].all
        (fun w => !(strContains (strLower text) w))) = true →
      (orch_fallback_classify text).urgency = "flexible") :=
  ⟨orchJobType_mem (strLower text), orchUrgency_mem (strLower text),
   agentJob_mem text, agentUrgency_mem text,
   agentJob_default text, agentUrgency_default text,
   orchJob_default text, orchUrgency_default text⟩

/-- Witness for C3 on the keyword-free input `"zzzz"`: both fallbacks hit
their defaults. -/
theorem C3_fallback_totality_witness :
    (agent_fallback_classify "zzzz").job_type = "general_plumbing" ∧
    (orch_fallback_classify "zzzz").job_type = "general_plumbing" ∧
    (orch_fallback_classify "zzzz").urgency = "flexible" :=
  ⟨(C3_fallback_totality "zzzz").2.2.2.2.1 (by decide),
   (C3_fallback_totality "zzzz").2.2.2.2.2.2.1 (by decide),
   (C3_fallback_totality "zzzz").2.2.2.2.2.2.2 (by decide)⟩

/-- Claim C9, counterexample to the claim as stated: on the scenario input
the orchestrator's deterministic keyword fallback (whose urgency table has no
burst/flood entry) yields urgency `flexible`, not `emergency`. -/
theorem C9_counterexample :
    (orch_fallback_classify
      "burst pipe, water everywhere, 8 Example St").urgency ≠ "emergency" ∧
    (orch_fallback_classify
      "burst pipe, water everywhere, 8 Example St").urgency = "flexible" := by
  constructor
  · decide
  · decide

/-- Claim C9 (amended): on the scenario input the `langchain_agent`
deterministic fallback — the one the live call pipeline uses — classifies
`job_type = pipe_burst` with `urgency = emergency` ("burst" is in its
emergency keyword group); the orchestrator fallback also extracts
`pipe_burst` but its urgency stays at the `flexible` default. -/
theorem C9_burst_pipe_scenario :
    (agent_fallback_classify
      "burst pipe, water everywhere, 8 Example St").job_type = "pipe_burst" ∧
    (agent_fallback_classify
      "burst pipe, water everywhere, 8 Example St").urgency = "emergency" ∧
    (orch_fallback_classify
      "burst pipe, water everywhere, 8 Example St").job_type = "pipe_burst" := by
  refine ⟨?_, ?_, ?_⟩ <;> decide

-- ---------------------------------------------------------------------------
-- Call-session lemmas (confidence gate)
-- ---------------------------------------------------------------------------

theorem utterance_fst (s : CallSession) :
    (on_utterance_end s).1 = { s with customer_speaking := false } := by
  simp only [on_utterance_end]
  split_ifs <;> rfl

theorem strTrim_empty : strTrim "" = "" := by decide

/-- In every reachable session state, a non-empty accumulated final
transcript implies at least one counted confidence sample (each final
fragment increments the counter). -/
theorem reachable_transcript_confidence {s : CallSession}
    (h : SessionReachable s) :
    s.final_transcript ≠ "" → s.confidence_count ≠ 0 := by
  induction h with
  | init => intro hft; exact absurd rfl hft
  | transcriptStep s text conf fin hs ih =>
      cases fin with
      | false => simpa [on_transcript] using ih
      | true => simp [on_transcript]
  | utteranceStep s hs ih =>
      rw [utterance_fst]
      simpa using ih
  | processStep ctx env llm s t hs ih =>
      simp only [voice_process_and_respond, voiceAck]
      split_ifs <;> try simpa using ih
      all_goals
        (repeat' split) <;> simpa using ih

/-- Claim C5: whenever a completed utterance is handed to processing with
average confidence below 0.30, `_process_and_respond` takes the repeat/
quieter branch: the Classifier is never invoked and the transcript
accumulator (final transcript, confidence sum and count) is reset. -/
theorem C5_confidence_gate (ctx : TradieCtx) (env : DistanceEnv)
    (llm : Option ClassifiedLead) (s : CallSession) (t : String)
    (hreach : SessionReachable s)
    (htrig : (on_utterance_end s).2 = some t)
    (hconf : avg_confidence (on_utterance_end s).1 < 3 / 10) :
    (voice_process_and_respond ctx env llm
      (on_utterance_end s).1 t).classifierInvoked = false ∧
    (voice_process_and_respond ctx env llm (on_utterance_end s).1 t).path =
      VoicePath.repeatRequest ∧
    (voice_process_and_respond ctx env llm
      (on_utterance_end s).1 t).session.final_transcript = "" ∧
    (voice_process_and_respond ctx env llm
      (on_utterance_end s).1 t).session.confidence_sum = 0 ∧
    (voice_process_and_respond ctx env llm
      (on_utterance_end s).1 t).session.confidence_count = 0 := by
  have hft : s.final_transcript ≠ "" := by
    simp only [on_utterance_end] at htrig
    split_ifs at htrig with h1 h2 <;> simp at htrig
    intro hempty
    exact h1 (Or.inl (by rw [hempty]; exact strTrim_empty))
  have hcount : s.confidence_count ≠ 0 :=
    reachable_transcript_confidence hreach hft
  have hcount1 : 0 < ((on_utterance_end s).1).confidence_count := by
    rw [utterance_fst]
    exact Nat.pos_of_ne_zero hcount
  rw [utterance_fst] at hconf hcount1 ⊢
  simp only [voice_process_and_respond]
  rw [if_pos ⟨hconf, hcount1⟩]
  exact ⟨rfl, rfl, rfl, rfl, rfl⟩

/-- Witness for C5: one 0.18-confidence final fragment, then utterance end. -/
theorem C5_confidence_gate_witness :
    (voice_process_and_respond ctxVoice envAllFail none
      (on_utterance_end sessionLowConf).1
      "burst pipe at my place").classifierInvoked = false ∧
    (voice_process_and_respond ctxVoice envAllFail none
      (on_utterance_end sessionLowConf).1 "burst pipe at my place").path =
      VoicePath.repeatRequest ∧
    (voice_process_and_respond ctxVoice envAllFail none
      (on_utterance_end sessionLowConf).1
      "burst pipe at my place").session.final_transcript = "" ∧
    (voice_process_and_respond ctxVoice envAllFail none
      (on_utterance_end sessionLowConf).1
      "burst pipe at my place").session.confidence_sum = 0 ∧
    (voice_process_and_respond ctxVoice envAllFail none
      (on_utterance_end sessionLowConf).1
      "burst pipe at my place").session.confidence_count = 0 :=
  C5_confidence_gate ctxVoice envAllFail none sessionLowConf
    "burst pipe at my place"
    (SessionReachable.transcriptStep _ _ _ _ SessionReachable.init)
    (by decide)
    (by
      rw [utterance_fst]
      have : sessionLowConf.confidence_count = 1 := by decide
      simp [avg_confidence, this]
      norm_num [sessionLowConf, on_transcript, initSession])

-- ---------------------------------------------------------------------------
-- Tradie-decision lemmas (C2, C6)
-- ---------------------------------------------------------------------------

theorem optTruthy_isSome {o : Option String} (h : optTruthy o = true) :
    o.isSome := by
  cases o <;> simp [optTruthy] at h ⊢

/-- Claim C6, counterexample to the claim as stated: approving a
`TRADIE_REVIEW` lead that has no customer phone number with both booking
fields moves it to `BOOKED` but sends no booking-confirmation SMS. -/
theorem C6_counterexample :
    (handle_tradie_decision leadReviewNoPhone approveBooked).lead.status =
      LeadStatus.booked ∧
    (handle_tradie_decision leadReviewNoPhone approveBooked).bookingSmsSent =
      false := by
  constructor
  · decide
  · decide

/-- Claim C6 (amended: the booking-confirmation SMS is sent only when the
lead has a customer phone number): approving with both booking fields yields
`BOOKED` with the fields stored (SMS iff a phone is on file); approving
without both yields `CONFIRMED`; an edit carrying a quote stores
`tradie_edited_quote`, updates `quote_total`, and stays at `TRADIE_REVIEW`;
and the resulting status is `BOOKED` only with both booking fields present. -/
theorem C6_tradie_decision (lead : Lead) (dec : TradieDecision)
    (hst : lead.status = LeadStatus.tradie_review) :
    (dec.decision = TradieDecisionEnum.approve →
      optTruthy dec.booked_date = true → optTruthy dec.booked_time_slot = true →
      (handle_tradie_decision lead dec).lead.status = LeadStatus.booked ∧
      (handle_tradie_decision lead dec).lead.booked_date = dec.booked_date ∧
      (handle_tradie_decision lead dec).lead.booked_time_slot =
        dec.booked_time_slot ∧
      (lead.customer_phone ≠ "" →
        (handle_tradie_decision lead dec).bookingSmsSent = true) ∧
      (lead.customer_phone = "" →
        (handle_tradie_decision lead dec).bookingSmsSent = false)) ∧
    (dec.decision = TradieDecisionEnum.approve →
      ¬(optTruthy dec.booked_date = true ∧ optTruthy dec.booked_time_slot = true) →
      (handle_tradie_decision lead dec).lead.status = LeadStatus.confirmed) ∧
    (dec.decision = TradieDecisionEnum.edit → ∀ q, dec.edited_quote = some q →
      (handle_tradie_decision lead dec).lead.tradie_edited_quote = some q ∧
      (handle_tradie_decision lead dec).lead.quote_total = some q.total ∧
      (handle_tradie_decision lead dec).lead.status = LeadStatus.tradie_review) ∧
    ((handle_tradie_decision lead dec).lead.status = LeadStatus.booked →
      (handle_tradie_decision lead dec).lead.booked_date.isSome ∧
      (handle_tradie_decision lead dec).lead.booked_time_slot.isSome) := by
  refine ⟨?_, ?_, ?_, ?_⟩
  · intro hd hbd hbs
    simp [handle_tradie_decision, hd, hbd, hbs]
  · intro hd hnb
    simp only [handle_tradie_decision, hd]
    rw [if_neg (by simpa using hnb)]
  · intro hd q hq
    simp [handle_tradie_decision, hd, hq]
  · intro hb
    rcases hdec : dec.decision with _ | _ | _ <;>
      simp only [handle_tradie_decision, hdec] at hb ⊢ <;>
      try split_ifs at hb ⊢ with htp
    all_goals first
      | exact ⟨optTruthy_isSome htp.1, optTruthy_isSome htp.2⟩
      | simp at hb

/-- Witness for C6: approving a review lead with a phone on file and both
booking fields books it and sends the SMS. -/
theorem C6_tradie_decision_witness :
    (handle_tradie_decision { leadReviewNoPhone with
      customer_phone := "+61400000000" } approveBooked).lead.status =
      LeadStatus.booked ∧
    (handle_tradie_decision { leadReviewNoPhone with
      customer_phone := "+61400000000" } approveBooked).bookingSmsSent = true := by
  have h := C6_tradie_decision
    { leadReviewNoPhone with customer_phone := "+61400000000" } approveBooked
    (by decide)
  have h1 := h.1 rfl (by decide) (by decide)
  exact ⟨h1.1, h1.2.2.2.1 (by decide)⟩

/-- Claim C2, counterexample to the claim as stated: `REJECTED` is not
terminal and no state-conflict check exists — an approve decision submitted
through the route for an already-rejected owned lead is accepted and moves
the lead backward to `CONFIRMED`. -/
theorem C2_counterexample :
    leadRejected.status = LeadStatus.rejected ∧
    decidedStatus db0 "U1" "L1" approveBare = some LeadStatus.confirmed := by
  constructor
  · decide
  · decide

/-- Claim C2 (amended): ownership is enforced — a decision for a lead not
owned by the acting user is rejected with an explicit 403 signal and no
mutation; and from `TRADIE_REVIEW` a decision only moves the status to
`CONFIRMED`, `BOOKED`, `REJECTED`, or keeps it at `TRADIE_REVIEW` (the quote
edit loop).  The route performs no terminal-state check, so a decision on an
already-terminal lead is processed rather than rejected (see the
counterexample). -/
theorem C2_ownership_and_transitions :
    (∀ (db : Db) (uid lid : String) (dec : TradieDecision) (lead : Lead),
      db.leads.find? (fun l => l.id == lid) = some lead →
      db.profiles.find? (fun p =>
        p.id == lead.user_profile_id && p.user_id == uid) = none →
      submit_tradie_decision db uid lid dec =
        Except.error { code := 403, detail := "Not your lead" }) ∧
    (∀ (lead : Lead) (dec : TradieDecision),
      lead.status = LeadStatus.tradie_review →
      (handle_tradie_decision lead dec).lead.status ∈
        [LeadStatus.confirmed, LeadStatus.booked, LeadStatus.tradie_review,
         LeadStatus.rejected]) := by
  constructor
  · intro db uid lid dec lead hfind hprof
    simp [submit_tradie_decision, hfind, hprof]
  · intro lead dec hst
    rcases hdec : dec.decision with _ | _ | _ <;>
      simp only [handle_tradie_decision, hdec]
    · split_ifs <;> simp
    · simp
    · simp

/-- Witness for C2: a foreign user's decision on `db0` is rejected with 403,
and an approve from review lands in the allowed status set. -/
theorem C2_ownership_and_transitions_witness :
    submit_tradie_decision db0 "UX" "L1" approveBare =
      Except.error { code := 403, detail := "Not your lead" } ∧
    (handle_tradie_decision leadReviewNoPhone approveBare).lead.status ∈
      [LeadStatus.confirmed, LeadStatus.booked, LeadStatus.tradie_review,
       LeadStatus.rejected] :=
  ⟨C2_ownership_and_transitions.1 db0 "UX" "L1" approveBare leadRejected
    (by decide) (by decide),
   C2_ownership_and_transitions.2 leadReviewNoPhone approveBare (by decide)⟩

-- ---------------------------------------------------------------------------
-- Service-area lemmas (C1)
-- ---------------------------------------------------------------------------

/-- Whenever the text pipeline completes with the owner profile found, the
lead has advanced to `TRADIE_REVIEW` with a quote — there is no service-area
comparison anywhere on this path. -/
theorem pipeline_always_reviews (env : PipelineEnv) (profile : UserProfile)
    (lead : Lead) (message : String) (r : PipelineResult)
    (h : process_customer_message env (some profile) lead message =
      Except.ok r) :
    r.lead.status = LeadStatus.tradie_review ∧ r.lead.quote_snapshot.isSome ∧
      r.profileFound = true := by
  simp only [process_customer_message] at h
  split at h
  · exact absurd h (by simp)
  · rw [Except.ok.injEq] at h
    subst h
    exact ⟨rfl, rfl, rfl⟩

/-- The voice pipeline speaks the out-of-area decline and returns before the
acknowledgment/photo-SMS step whenever the resolved distance exceeds the
service radius. -/
theorem voice_gate_declines (ctx : TradieCtx) (env : DistanceEnv)
    (llm : Option ClassifiedLead) (s : CallSession) (t : String)
    (dist : DistanceResult)
    (hno : ¬(avg_confidence s < 3 / 10 ∧ 0 < s.confidence_count))
    (hsub1 : (classify_lead llm t).suburb ≠ "")
    (hsub2 : (classify_lead llm t).suburb ≠ "unknown")
    (hbase : ctx.base_address.getD "" ≠ "")
    (hdist : calculate_distance env (ctx.base_address.getD "")
      (classify_lead llm t).suburb = Except.ok dist)
    (hover : dist.distance_km > ctx.service_radius_km.getD 50) :
    (voice_process_and_respond ctx env llm s t).path = VoicePath.outOfArea ∧
    (voice_process_and_respond ctx env llm s t).photoSmsSent = false := by
  simp only [voice_process_and_respond]
  rw [if_neg hno, if_pos ⟨hsub1, hsub2, hbase⟩, hdist]
  simp [hover]

/-- The voice pipeline never persists a quote: its broadcast payload always
carries status `"new"` and an empty quote-line list. -/
theorem broadcast_always_new (lid : String) (s : CallSession)
    (ld : BroadcastLead) (h : broadcast_lead lid s = some ld) :
    ld.status = "new" ∧ ld.quoteLines = [] := by
  rcases hc : s.classificationResult with _ | c
  · simp [broadcast_lead, hc] at h
  · simp only [broadcast_lead, hc, Option.some.injEq] at h
    subst h
    exact ⟨rfl, rfl⟩

/-- Claim C1, counterexample to the claim as stated: the text pipeline
resolves a 60 km distance against a 35 km service radius and still advances
the lead to `TRADIE_REVIEW` with a computed quote — no decline, and the
status does not remain `NEW`/`DETAILS_COLLECTED`. -/
theorem C1_counterexample :
    (pipelineLead (process_customer_message pipelineEnv60 (some profile1)
      lead0 "my drain is blocked")).map (fun l => l.status) =
      some LeadStatus.tradie_review ∧
    (pipelineLead (process_customer_message pipelineEnv60 (some profile1)
      lead0 "my drain is blocked")).map (fun l => l.distance_km) =
      some (some 60) ∧
    profile1.service_radius_km = 35 ∧ (60 : ℚ) > 35 ∧
    (pipelineLead (process_customer_message pipelineEnv60 (some profile1)
      lead0 "my drain is blocked")).map (fun l => l.quote_snapshot.isSome) =
      some true := by
  refine ⟨by decide, by decide, by decide, by norm_num, by decide⟩

/-- Claim C1 (amended): the service-area gate lives only in the voice call
pipeline — there an out-of-range resolved distance produces the decline
response, skips the acknowledgment/photo-SMS, and anything broadcast for the
call stays at status `"new"` with no quote lines.  The text pipeline
(`process_customer_message`) performs no service-area comparison: even when
`distance_km > service_radius_km` the lead advances through `PRICING` to
`TRADIE_REVIEW` and a quote is computed. -/
theorem C1_service_area_gate :
    (∀ (ctx : TradieCtx) (env : DistanceEnv) (llm : Option ClassifiedLead)
       (s : CallSession) (t : String) (dist : DistanceResult),
      ¬(avg_confidence s < 3 / 10 ∧ 0 < s.confidence_count) →
      (classify_lead llm t).suburb ≠ "" →
      (classify_lead llm t).suburb ≠ "unknown" →
      ctx.base_address.getD "" ≠ "" →
      calculate_distance env (ctx.base_address.getD "")
        (classify_lead llm t).suburb = Except.ok dist →
      dist.distance_km > ctx.service_radius_km.getD 50 →
      (voice_process_and_respond ctx env llm s t).path = VoicePath.outOfArea ∧
      (voice_process_and_respond ctx env llm s t).photoSmsSent = false) ∧
    (∀ (lid : String) (s : CallSession) (ld : BroadcastLead),
      broadcast_lead lid s = some ld →
      ld.status = "new" ∧ ld.quoteLines = []) ∧
    (∀ (env : PipelineEnv) (profile : UserProfile) (lead : Lead)
       (message : String) (r : PipelineResult) (d : ℚ),
      process_customer_message env (some profile) lead message =
        Except.ok r →
      r.lead.distance_km = some d → d > profile.service_radius_km →
      r.lead.status = LeadStatus.tradie_review ∧
        r.lead.quote_snapshot.isSome) :=
  ⟨fun ctx env llm s t dist hno h1 h2 h3 h4 h5 =>
      voice_gate_declines ctx env llm s t dist hno h1 h2 h3 h4 h5,
   fun lid s ld h => broadcast_always_new lid s ld h,
   fun env profile lead message r _ h _ _ =>
      ⟨(pipeline_always_reviews env profile lead message r h).1,
       (pipeline_always_reviews env profile lead message r h).2.1⟩⟩

/-- Witness for C1: a 60 km suburb against a 35 km radius makes the voice
pipeline decline with no SMS. -/
theorem C1_service_area_gate_witness :
    (voice_process_and_respond ctxVoice envGoogle60 (some clsVoice)
      sessionHighConf "blocked drain in Coolangatta").path =
      VoicePath.outOfArea ∧
    (voice_process_and_respond ctxVoice envGoogle60 (some clsVoice)
      sessionHighConf "blocked drain in Coolangatta").photoSmsSent = false :=
  C1_service_area_gate.1 ctxVoice envGoogle60 (some clsVoice) sessionHighConf
    "blocked drain in Coolangatta"
    { distance_km := 60, duration_minutes := 55,
      origin := "8 Base St Southport", destination := "Coolangatta" }
    (by
      rintro ⟨hlt, -⟩
      norm_num [avg_confidence, sessionHighConf, on_transcript,
        initSession] at hlt)
    (by decide) (by decide) (by decide)
    (by rfl)
    (by norm_num [ctxVoice])

-- ---------------------------------------------------------------------------
-- Distance-resolver lemmas (C8)
-- ---------------------------------------------------------------------------

theorem osrm_error_iff (env : DistanceEnv) (o d : String) :
    (∃ e, distance_osrm env o d = Except.error e) ↔
      osrmChainFails env o d = true := by
  rcases hgo : env.geocode o with _ | po <;>
    rcases hgd : env.geocode d with _ | pd <;>
      simp [distance_osrm, osrmChainFails, hgo, hgd]
  rcases hr : env.osrmRoute po pd with _ | (_ | rt2) <;> simp [hr]

/-- Claim C8: the distance operation fails on blank addresses, never returns
a result for a blank address, and — for non-blank addresses — fails exactly
when the whole provider chain (Google when configured, then OSM geocoding +
OSRM routing) cannot produce a usable distance. -/
theorem C8_distance_error_handling (env : DistanceEnv) (o d : String) :
    ((strTrim o = "" ∨ strTrim d = "") →
      ∃ e, calculate_distance env o d = Except.error e) ∧
    (∀ r, calculate_distance env o d = Except.ok r →
      strTrim o ≠ "" ∧ strTrim d ≠ "") ∧
    (strTrim o ≠ "" → strTrim d ≠ "" →
      ((∃ e, calculate_distance env o d = Except.error e) ↔
        ((env.googleKey = false ∨ env.googleMatrix o d = none) ∧
         osrmChainFails env o d = true))) := by
  refine ⟨?_, ?_, ?_⟩
  · intro h
    unfold calculate_distance
    rw [if_pos h]
    exact ⟨_, rfl⟩
  · intro r hr
    constructor
    · intro hempty
      unfold calculate_distance at hr
      rw [if_pos (Or.inl hempty)] at hr
      cases hr
    · intro hempty
      unfold calculate_distance at hr
      rw [if_pos (Or.inr hempty)] at hr
      cases hr
  · intro ho hd
    unfold calculate_distance
    rw [if_neg (not_or.mpr ⟨ho, hd⟩)]
    cases hg : env.googleKey
    · simp only [Bool.false_eq_true, if_false]
      rw [osrm_error_iff]
      simp
    · simp only [if_true]
      rcases hm : env.googleMatrix o d with _ | r
      · simp only []
        rw [osrm_error_iff]
        simp [hm]
      · simp [hm]

/-- Witness for C8: with every provider failing, a blank origin errors, and
non-blank endpoints that no provider can resolve also error. -/
theorem C8_distance_error_handling_witness :
    (∃ e, calculate_distance envAllFail "" "B St" = Except.error e) ∧
    (∃ e, calculate_distance envAllFail "A St" "B St" = Except.error e) :=
  ⟨(C8_distance_error_handling envAllFail "" "B St").1 (Or.inl (by decide)),
   ((C8_distance_error_handling envAllFail "A St" "B St").2.2 (by decide)
      (by decide)).mpr ⟨Or.inl rfl, by decide⟩⟩

-- ---------------------------------------------------------------------------
-- Registry (association-list) lemmas
-- ---------------------------------------------------------------------------

theorem lookup_setConns_self {m : Registry} {t : String} {c0 : List Socket}
    (h : lookupConns m t = some c0) (c : List Socket) :
    lookupConns (setConns m t c) t = some c := by
  induction m with
  | nil => simp [lookupConns] at h
  | cons p rest ih =>
      rcases p with ⟨k, v⟩
      by_cases hk : k = t
      · subst hk; simp [lookupConns, setConns]
      · simp only [lookupConns, setConns, if_neg hk] at h ⊢
        exact ih h

theorem lookup_append_of_none {m1 m2 : Registry} {t : String}
    (h : lookupConns m1 t = none) :
    lookupConns (m1 ++ m2) t = lookupConns m2 t := by
  induction m1 with
  | nil => rfl
  | cons p rest ih =>
      rcases p with ⟨k, v⟩
      by_cases hk : k = t
      · simp [lookupConns, hk] at h
      · simp only [lookupConns, if_neg hk, List.cons_append] at h ⊢
        exact ih h

theorem lookup_delConns_self (m : Registry) (t : String) :
    lookupConns (delConns m t) t = none := by
  induction m with
  | nil => rfl
  | cons p rest ih =>
      rcases p with ⟨k, v⟩
      by_cases hk : k = t
      · simpa [delConns, List.filter, hk] using ih
      · simpa [delConns, List.filter, hk, lookupConns] using ih

theorem delConns_of_not_mem {m : Registry} {t : String}
    (h : lookupConns m t = none) : delConns m t = m := by
  induction m with
  | nil => rfl
  | cons p rest ih =>
      rcases p with ⟨k, v⟩
      by_cases hk : k = t
      · simp [lookupConns, hk] at h
      · simp only [lookupConns, if_neg hk] at h
        simp [delConns, List.filter, hk] at ih ⊢
        exact ih h

theorem mem_setConns {m : Registry} {t : String} {c : List Socket}
    {p : String × List Socket} (hp : p ∈ setConns m t c) :
    p ∈ m ∨ p = (t, c) := by
  induction m with
  | nil => simp [setConns] at hp
  | cons q rest ih =>
      rcases q with ⟨k, v⟩
      by_cases hk : k = t
      · subst hk
        simp only [setConns, if_pos rfl] at hp
        rcases List.mem_cons.mp hp with rfl | hp2
        · exact Or.inr rfl
        · exact Or.inl (List.mem_cons_of_mem _ hp2)
      · simp only [setConns, if_neg hk] at hp
        rcases List.mem_cons.mp hp with rfl | hp2
        · exact Or.inl (List.mem_cons_self _ _)
        · rcases ih hp2 with h | h
          · exact Or.inl (List.mem_cons_of_mem _ h)
          · exact Or.inr h

theorem keys_setConns (m : Registry) (t : String) (c : List Socket) :
    (setConns m t c).map (fun p => p.1) = m.map (fun p => p.1) := by
  induction m with
  | nil => rfl
  | cons q rest ih =>
      rcases q with ⟨k, v⟩
      by_cases hk : k = t
      · simp [setConns, hk]
      · simp [setConns, hk, ih]

theorem lookup_none_iff_keys (m : Registry) (t : String) :
    lookupConns m t = none ↔ t ∉ m.map (fun p => p.1) := by
  induction m with
  | nil => simp [lookupConns]
  | cons q rest ih =>
      rcases q with ⟨k, v⟩
      by_cases hk : k = t
      · simp [lookupConns, hk]
      · simp [lookupConns, hk, ih, Ne.symm hk]

theorem lookup_mem {m : Registry} {t : String} {c : List Socket}
    (h : lookupConns m t = some c) : (t, c) ∈ m := by
  induction m with
  | nil => simp [lookupConns] at h
  | cons q rest ih =>
      rcases q with ⟨k, v⟩
      by_cases hk : k = t
      · subst hk
        simp only [lookupConns, if_true] at h
        simp at h
        subst h
        exact List.mem_cons_self _ _
      · simp only [lookupConns, if_neg hk] at h
        exact List.mem_cons_of_mem _ (ih h)

theorem lookup_isSome_of_mem_keys {m : Registry} {t : String}
    (h : t ∈ m.map (fun p => p.1)) : ∃ c, lookupConns m t = some c := by
  rcases hl : lookupConns m t with _ | c
  · exact absurd h ((lookup_none_iff_keys m t).mp hl)
  · exact ⟨c, rfl⟩

theorem active_setConns {m : Registry} {t : String} {c0 : List Socket}
    (h : lookupConns m t = some c0) (c : List Socket) :
    active_count (setConns m t c) + c0.length =
      active_count m + c.length := by
  induction m with
  | nil => simp [lookupConns] at h
  | cons q rest ih =>
      rcases q with ⟨k, v⟩
      by_cases hk : k = t
      · subst hk
        simp [lookupConns] at h
        subst h
        simp [setConns, active_count]
        omega
      · simp only [lookupConns, if_neg hk] at h
        have := ih h
        simp [setConns, hk, active_count] at this ⊢
        omega

theorem active_append (m1 m2 : Registry) :
    active_count (m1 ++ m2) = active_count m1 + active_count m2 := by
  simp [active_count]

theorem active_delConns {m : Registry} {t : String} {c : List Socket}
    (hk : KeysNodup m) (h : lookupConns m t = some c) :
    active_count (delConns m t) + c.length = active_count m := by
  induction m with
  | nil => simp [lookupConns] at h
  | cons q rest ih =>
      rcases q with ⟨k, v⟩
      by_cases hkt : k = t
      · subst hkt
        simp [lookupConns] at h
        subst h
        have hrest : lookupConns rest k = none := by
          rw [lookup_none_iff_keys]
          simpa [KeysNodup] using (List.nodup_cons.mp hk).1
        rw [show delConns ((k, v) :: rest) k = delConns rest k by
          simp [delConns, List.filter]]
        rw [delConns_of_not_mem hrest]
        simp [active_count]
        omega
      · have hk2 : KeysNodup rest := by
          simpa [KeysNodup] using (List.nodup_cons.mp hk).2
        simp only [lookupConns, if_neg hkt] at h
        have := ih hk2 h
        rw [show delConns ((k, v) :: rest) t = (k, v) :: delConns rest t by
          simp [delConns, List.filter, hkt]]
        simp [active_count] at this ⊢
        omega

theorem filter_eq_single {α : Type} [DecidableEq α] {l : List α}
    {p : α → Bool} {f : α} (hnd : l.Nodup) (hf : f ∈ l) (hpf : p f = true)
    (hrest : ∀ x ∈ l, x ≠ f → p x = false) : l.filter p = [f] := by
  induction l with
  | nil => cases hf
  | cons a l ih =>
      rcases List.mem_cons.mp hf with rfl | hfl
      · have hnil : l.filter p = [] := by
          rw [List.filter_eq_nil]
          intro x hx
          have hxf : x ≠ f := fun h => (List.nodup_cons.mp hnd).1 (h ▸ hx)
          simp [hrest x (List.mem_cons_of_mem _ hx) hxf]
        simp [List.filter_cons, hpf, hnil]
      · have haf : a ≠ f := by
          intro h
          exact (List.nodup_cons.mp hnd).1 (h ▸ hfl)
        have hpa : p a = false := hrest a (List.mem_cons_self _ _) haf
        simp only [List.filter_cons, hpa, Bool.false_eq_true, if_false]
        exact ih (List.nodup_cons.mp hnd).2 hfl
          (fun x hx hxf => hrest x (List.mem_cons_of_mem _ hx) hxf)

/-- Claim C7: with an owner holding a duplicate-free socket list in which
exactly one socket `f` fails, one broadcast call attempts every socket,
delivers to every socket but `f`, and removes only `f` from the registry. -/
theorem C7_broadcast_isolation (m : Registry) (t : String)
    (fails : Socket → Bool) (conns : List Socket) (f : Socket)
    (hl : lookupConns m t = some conns) (hnd : conns.Nodup)
    (hf : f ∈ conns) (hfail : fails f = true)
    (honly : ∀ x ∈ conns, x ≠ f → fails x = false)
    (hn : 2 ≤ conns.length) :
    (send_to_tradie m t fails).attempted = conns ∧
    (send_to_tradie m t fails).delivered = conns.erase f ∧
    lookupConns (send_to_tradie m t fails).registry t =
      some (conns.erase f) ∧
    f ∉ (send_to_tradie m t fails).delivered ∧
    (∀ x ∈ conns, x ≠ f → x ∈ (send_to_tradie m t fails).delivered) := by
  have hdead : conns.filter fails = [f] :=
    filter_eq_single hnd hf hfail honly
  have hdel : conns.filter (fun ws => !(fails ws)) = conns.erase f := by
    rw [List.Nodup.erase_eq_filter hnd]
    apply List.filter_congr
    intro x hx
    by_cases hxf : x = f
    · subst hxf; simp [hfail]
    · simp [honly x hx hxf, hxf]
  have hdelR : (send_to_tradie m t fails).delivered = conns.erase f := by
    simpa [send_to_tradie, hl] using hdel
  have herase_ne : conns.erase f ≠ [] := by
    have hlen := List.length_erase_of_mem hf
    intro hemp
    rw [hemp] at hlen
    simp at hlen
    omega
  have hreg : (send_to_tradie m t fails).registry = disconnect m t f := by
    simp [send_to_tradie, hl, hdead]
  have hlook : lookupConns (disconnect m t f) t = some (conns.erase f) := by
    simp only [disconnect, hl]
    rw [if_neg herase_ne]
    exact lookup_setConns_self hl _
  refine ⟨by simp [send_to_tradie, hl], hdelR, by rw [hreg]; exact hlook,
    ?_, ?_⟩
  · rw [hdelR]
    intro hmem
    exact herase_ne (by
      have := (List.Nodup.mem_erase_iff hnd).mp hmem
      exact absurd rfl this.1)
  · intro x hx hxf
    rw [hdelR]
    exact (List.mem_erase_of_ne hxf).mpr hx

/-- Witness for C7 on the concrete registry: owner T1 has sockets 1 and 2,
socket 1 fails, socket 2 still gets the event and stays registered. -/
theorem C7_broadcast_isolation_witness :
    (send_to_tradie reg0 "T1" failsOne).attempted = [1, 2] ∧
    (send_to_tradie reg0 "T1" failsOne).delivered = [2] ∧
    lookupConns (send_to_tradie reg0 "T1" failsOne).registry "T1" =
      some [2] := by
  have h := C7_broadcast_isolation reg0 "T1" failsOne [1, 2] 1
    (by decide) (by decide) (by decide) (by decide) (by decide) (by decide)
  refine ⟨h.1, ?_, ?_⟩
  · rw [h.2.1]; decide
  · rw [h.2.2.1]; decide

/-- Claim C10: `connect` appends the socket under the owner's key (creating
it if absent), `disconnect` removes the socket and deletes the key once its
last socket goes, both preserve key-uniqueness and the no-empty-owner
invariant, `connected_tradies` lists only owners with a live connection, and
`active_count` tracks the total socket count (+1 on connect, -1 on
disconnecting a registered socket). -/
theorem C10_registry_invariant (m : Registry) (t : String) (ws : Socket) :
    (KeysNodup m → KeysNodup (connect m t ws)) ∧
    (KeysNodup m → KeysNodup (disconnect m t ws)) ∧
    (NoEmptyOwner m → NoEmptyOwner (connect m t ws)) ∧
    (NoEmptyOwner m → NoEmptyOwner (disconnect m t ws)) ∧
    lookupConns (connect m t ws) t =
      some ((lookupConns m t).getD [] ++ [ws]) ∧
    (NoEmptyOwner m → ∀ t2 ∈ connected_tradies m,
      ∃ c, lookupConns m t2 = some c ∧ c ≠ []) ∧
    active_count (connect m t ws) = active_count m + 1 ∧
    (KeysNodup m → ∀ c, lookupConns m t = some c → ws ∈ c →
      active_count (disconnect m t ws) + 1 = active_count m) ∧
    (∀ c, lookupConns m t = some c →
      lookupConns (disconnect m t ws) t =
        (if c.erase ws = [] then none else some (c.erase ws))) := by
  refine ⟨?_, ?_, ?_, ?_, ?_, ?_, ?_, ?_, ?_⟩
  · intro hk
    rcases hl : lookupConns m t with _ | c
    · have ht : t ∉ m.map (fun p => p.1) := (lookup_none_iff_keys m t).mp hl
      simp only [connect, hl]
      unfold KeysNodup at hk ⊢
      simp only [List.map_append, List.map_cons, List.map_nil]
      rw [List.nodup_append]
      exact ⟨hk, by simp,
        fun x hx hxt => ht ((List.mem_singleton.mp hxt) ▸ hx)⟩
    · simp only [connect, hl]
      unfold KeysNodup
      rw [keys_setConns]
      exact hk
  · intro hk
    rcases hl : lookupConns m t with _ | c
    · simpa [disconnect, hl] using hk
    · simp only [disconnect, hl]
      split_ifs
      · unfold KeysNodup at hk ⊢
        unfold delConns
        exact (List.Sublist.map (fun p => p.1)
          (List.filter_sublist m)).nodup hk
      · unfold KeysNodup
        rw [keys_setConns]
        exact hk
  · intro hInv p hp
    rcases hl : lookupConns m t with _ | c
    · simp only [connect, hl] at hp
      rcases List.mem_append.mp hp with hm | hnew
      · exact hInv p hm
      · simp at hnew
        simp [hnew]
    · simp only [connect, hl] at hp
      rcases mem_setConns hp with hm | rfl
      · exact hInv p hm
      · simp
  · intro hInv p hp
    rcases hl : lookupConns m t with _ | c
    · simp only [disconnect, hl] at hp
      exact hInv p hp
    · simp only [disconnect, hl] at hp
      split_ifs at hp with he
      · exact hInv p (List.mem_of_mem_filter hp)
      · rcases mem_setConns hp with hm | rfl
        · exact hInv p hm
        · exact he
  · rcases hl : lookupConns m t with _ | c
    · simp only [connect, hl]
      rw [lookup_append_of_none hl]
      simp [lookupConns]
    · simp only [connect, hl, Option.getD_some]
      exact lookup_setConns_self hl _
  · intro hInv t2 ht2
    obtain ⟨c, hc⟩ := lookup_isSome_of_mem_keys ht2
    exact ⟨c, hc, hInv (t2, c) (lookup_mem hc)⟩
  · rcases hl : lookupConns m t with _ | c
    · simp only [connect, hl]
      rw [active_append]
      simp [active_count]
    · simp only [connect, hl]
      have := active_setConns hl (c ++ [ws])
      simp at this
      omega
  · intro hk c hl hw
    have hpos : 0 < c.length := List.length_pos_of_mem hw
    have hlen := List.length_erase_of_mem hw
    simp only [disconnect, hl]
    split_ifs with he
    · have := active_delConns hk hl
      have h0 : (c.erase ws).length = 0 := by rw [he]; rfl
      omega
    · have := active_setConns hl (c.erase ws)
      omega
  · intro c hl
    simp only [disconnect, hl]
    split_ifs with he
    · exact lookup_delConns_self m t
    · exact lookup_setConns_self hl _

/-- Witness for C10 on the concrete registry: connecting a second socket for
T1 and disconnecting it again keep all invariants and the counts line up. -/
theorem C10_registry_invariant_witness :
    KeysNodup (connect reg0 "T1" 2) ∧
    NoEmptyOwner (disconnect reg0 "T1" 2) ∧
    lookupConns (connect reg0 "T1" 2) "T1" =
      some ((lookupConns reg0 "T1").getD [] ++ [2]) ∧
    active_count (connect reg0 "T1" 2) = active_count reg0 + 1 ∧
    active_count (disconnect reg0 "T1" 2) + 1 = active_count reg0 :=
  ⟨(C10_registry_invariant reg0 "T1" 2).1 (by unfold KeysNodup; decide),
   (C10_registry_invariant reg0 "T1" 2).2.2.2.1
     (by unfold NoEmptyOwner; decide),
   (C10_registry_invariant reg0 "T1" 2).2.2.2.2.1,
   (C10_registry_invariant reg0 "T1" 2).2.2.2.2.2.2.1,
   (C10_registry_invariant reg0 "T1" 2).2.2.2.2.2.2.2.1
     (by unfold KeysNodup; decide) [1, 2] (by decide) (by decide)⟩

end Hackathon
